import Mathlib

/-!
Shallow embedding of the avatar presence / lip-sync animation engine
(`src/unnamed/part_001`, class `HologramEngine`-style; the near-duplicate
`src/static/js/holograma_k.js` agrees on every function modelled here).

Modelling conventions:
* JavaScript numbers that can be `NaN` are modelled by `JSNum`
  (`nan` or a rational value); comparisons against `nan` are false,
  arithmetic involving `nan` yields `nan`, as in IEEE/JS semantics.
* `Engine.morphs` is the shared `morphTargetInfluences` array of the
  loaded model that the viseme and lip-sync passes write; `Engine.dict`
  is its `morphTargetDictionary`. `Engine.meshPresent` models whether
  `this.mesh` is set: no statement in the repository ever assigns
  `this.mesh` (the loader populates `modelRoot`, `morphTargets` and
  `visemeTargets` only), so in every reachable state `meshPresent = false`
  and the guarded bodies of `syncMonitor` and `_applyEmotionMorphs`,
  transcribed below for completeness, never run.
* `Engine.morphTargets` holds the indices of the generic mouth-morph
  entries collected at load time (names matching /mouth|jaw|lip|viseme/),
  `Engine.visemeTargets` the association list of viseme codes to indices.
* Fields of the engine that no verified claim depends on (scene, lights,
  camera, gaze, focus, activity timestamps, animation actions) are omitted;
  `updateProcedural` and the animation mixer write bone rotations, light
  intensities and the root position, never `morphTargetInfluences`, so they
  are the identity on the modelled state and the per-frame `animate` body
  restricted to this state is `updateVisemes; updateLipSync; syncMonitor`.
-/

/-- A JavaScript number: either `NaN` or an (exact) rational value. -/
inductive JSNum where
  | nan : JSNum
  | val : ℚ → JSNum
deriving DecidableEq, Repr

/-- Blend step `w + (target - w) * 0.15` from `_applyEmotionMorphs`;
`NaN` propagates as in JS arithmetic. -/
def blendStep (w : JSNum) (target : ℚ) : JSNum :=
  match w with
  | .nan => .nan
  | .val q => .val (q + (target - q) * (3/20))

/-- The Sync-Monitor keep condition: a non-`NaN` value within `[-0.1, 1.5]`
(the source clamps when `isNaN(x) || x < -0.1 || x > 1.5`). -/
def inRangeB : JSNum → Bool
  | .nan => false
  | .val q => decide (-(1/10) ≤ q) && decide (q ≤ 3/2)

/-- One entry of `morphTargets[i]` after the Sync Monitor clamp scan:
`NaN` or out-of-range values are set to `0`, others kept. -/
def clampEntry (x : JSNum) : JSNum :=
  if inRangeB x then x else .val 0

/-- The read-only view of the attached `<audio>` element. -/
structure AudioState where
  currentTime : ℚ
  paused : Bool
  ended : Bool
deriving DecidableEq, Repr

/-- `this.params` of the engine. -/
structure Params where
  state : String
  emotion : String
  isSpeaking : Bool
  isListening : Bool
deriving DecidableEq, Repr

/-- The constructor's initial `this.params`. -/
def initParams : Params :=
  { state := "idle", emotion := "calm", isSpeaking := false, isListening := false }

/-- One entry of a viseme timeline sent by the backend. -/
structure VisemeEntry where
  viseme : String
  t0 : ℚ
  t1 : ℚ
deriving DecidableEq, Repr, Inhabited

/-- The engine state acted on by the modelled methods. -/
structure Engine where
  meshPresent : Bool
  dict : String → Option ℕ
  morphs : List JSNum
  morphTargets : List ℕ
  visemeTargets : List (String × ℕ)
  jawPresent : Bool
  jawRotX : ℚ
  audioEl : Option AudioState
  analyserPresent : Bool
  dataArray : Option (List ℕ)
  visemeTimeline : List VisemeEntry
  visemeIndex : ℕ
  params : Params
  wasSpeaking : Bool
  lastMouthIntensity : ℚ
  isSpeakingFld : Bool

/-- A sequence of in-place array writes `m[i] = v` applied left to right
(later writes win), as produced by the engine's `for`-loops over morph
indices. Writes at an out-of-range index are dropped (`List.set` semantics;
the engine only ever writes indices obtained from the morph dictionary). -/
def writeSeq (ws : List (ℕ × JSNum)) (m : List JSNum) : List JSNum :=
  ws.foldl (fun acc w => acc.set w.1 w.2) m

/-- The last value written at index `j` by a write sequence, if any. -/
def lastWrite (ws : List (ℕ × JSNum)) (j : ℕ) : Option JSNum :=
  match ws with
  | [] => none
  | w :: rest =>
    match lastWrite rest j with
    | some v => some v
    | none => if w.1 = j then some w.2 else none

/-- Clamp to `[0,1]`: `Math.max(0, Math.min(1, x))`. -/
def clamp01 (q : ℚ) : ℚ := max 0 (min 1 q)

/-- The viseme key actually looked up: `(viseme || "REST").toUpperCase()`
(the empty string is falsy in JS). -/
def normKey (v : String) : String :=
  (if v = "" then "REST" else v).toUpper

/-- The viseme-target entry selected by `_applyViseme`:
`this.visemeTargets.get(key) || this.visemeTargets.get("REST")`. -/
def visemeSel (vts : List (String × ℕ)) (v : String) : Option ℕ :=
  match List.lookup (normKey v) vts with
  | some i => some i
  | none => List.lookup "REST" vts

/-- The array writes performed by `_applyViseme`: zero every registered
viseme channel, then set the selected one to the clamped intensity.
If no viseme target is registered the method returns without writing. -/
def applyVisemeWrites (vts : List (String × ℕ)) (v : String) (q : ℚ) :
    List (ℕ × JSNum) :=
  if vts = [] then []
  else
    vts.map (fun p => (p.2, JSNum.val 0)) ++
      match visemeSel vts v with
      | some i => [(i, JSNum.val (clamp01 q))]
      | none => []

/-- `_applyViseme(viseme, intensity)`. -/
def applyViseme (e : Engine) (v : String) (q : ℚ) : Engine :=
  { e with morphs := writeSeq (applyVisemeWrites e.visemeTargets v q) e.morphs }

/-- The `while` loop of `updateVisemes`:
`while (i < len - 1 && t > timeline[i].t1) i++`, with fuel `len`
(an upper bound on the number of iterations). -/
def advanceCursorFuel : ℕ → List VisemeEntry → ℚ → ℕ → ℕ
  | 0, _, _, i => i
  | fuel + 1, tl, t, i =>
    if i < tl.length - 1 ∧ ((tl.getD i default).t1 < t) then
      advanceCursorFuel fuel tl t (i + 1)
    else i

/-- Cursor advance of `updateVisemes` for one call. -/
def advanceCursor (tl : List VisemeEntry) (t : ℚ) (i : ℕ) : ℕ :=
  advanceCursorFuel tl.length tl t i

/-- `updateVisemes()`: no-op without an audio element or a (non-empty)
timeline; otherwise advance the cursor and apply either the active entry's
viseme at intensity `0.95` or `REST` at `0.2`. -/
def updateVisemes (e : Engine) : Engine :=
  match e.audioEl with
  | none => e
  | some a =>
    if e.visemeTimeline.length = 0 then e
    else
      let t := a.currentTime
      let i := advanceCursor e.visemeTimeline t e.visemeIndex
      let e1 := { e with visemeIndex := i }
      match e1.visemeTimeline.get? i with
      | none => e1
      | some cur =>
        if cur.t0 ≤ t ∧ t ≤ cur.t1 then applyViseme e1 cur.viseme (19/20)
        else applyViseme e1 "REST" (1/5)

/-- The smoothed mouth intensity computed in the speaking branch of
`updateLipSync` from the analyser byte data: raw `sum/15000`, silence
threshold `0.05`, renormalisation, then exponential smoothing `0.3`
against `_lastMouthIntensity`. -/
def smoothedIntensity (d : List ℕ) (last : ℚ) : ℚ :=
  let sum : ℕ := d.foldl (· + ·) 0
  let raw : ℚ := (sum : ℚ) / 15000
  let intensity : ℚ :=
    if raw > 1/20 then min 1 ((raw - 1/20) / (1 - 1/20)) else 0
  last + (intensity - last) * (3/10)

/-- `updateLipSync()`. Guard: analyser, data array and audio element must
all be present. Speaking branch drives jaw and all registered mouth morphs
from the smoothed amplitude; the just-stopped branch performs the one-shot
mouth reset; otherwise no-op. -/
def updateLipSync (e : Engine) : Engine :=
  match e.dataArray, e.audioEl with
  | some d, some a =>
    if e.analyserPresent = false then e
    else
      let shouldSpeak := e.params.isSpeaking ∧ a.paused = false ∧ a.ended = false
      if shouldSpeak then
        let smooth := smoothedIntensity d e.lastMouthIntensity
        { e with
          wasSpeaking := true
          lastMouthIntensity := smooth
          jawRotX := if e.jawPresent then -(smooth * (11/50)) else e.jawRotX
          morphs :=
            writeSeq (e.morphTargets.map fun i => (i, JSNum.val (smooth * (17/20))))
              e.morphs }
      else if e.wasSpeaking then
        applyViseme
          { e with
            wasSpeaking := false
            lastMouthIntensity := 0
            jawRotX := if e.jawPresent then 0 else e.jawRotX
            morphs :=
              writeSeq (e.morphTargets.map fun i => (i, JSNum.val 0)) e.morphs }
          "REST" (1/10)
      else e
  | _, _ => e

/-- `resetMouth()`: unconditional one-shot mouth reset. -/
def resetMouth (e : Engine) : Engine :=
  applyViseme
    { e with
      wasSpeaking := false
      jawRotX := if e.jawPresent then 0 else e.jawRotX
      morphs := writeSeq (e.morphTargets.map fun i => (i, JSNum.val 0)) e.morphs }
    "REST" (1/10)

/-- Mouth-morph names decayed by the Sync Monitor when idle. -/
def mouthMorphNames : List String :=
  ["jawOpen", "mouthOpen", "viseme_aa", "viseme_O", "viseme_E"]

/-- One decay step of the Sync Monitor: if the value at `i` exceeds `0.15`
it is multiplied by `0.85` (a `NaN` or missing value compares false and is
left alone). -/
def decayAt (m : List JSNum) (i : ℕ) : List JSNum :=
  match m.get? i with
  | some (.val q) => if q > 3/20 then m.set i (.val (q * (17/20))) else m
  | _ => m

/-- One iteration of the Sync Monitor's mouth-decay loop: look the name up
in the dictionary and decay that index. -/
def decayStep (dict : String → Option ℕ) (m : List JSNum) (name : String) :
    List JSNum :=
  match dict name with
  | some idx => decayAt m idx
  | none => m

/-- `syncMonitor()` restricted to the morph-weight vector: the clamp scan
 over every entry, then (when no analyser is attached and the — never
assigned, hence undefined/false — `this.isSpeaking` field is falsy) the
mouth-morph decay pass. The rotation clamping acts on fields outside the
modelled state. Note the body below the `if (!this.mesh) return;` guard is
dead code in every execution, since `this.mesh` is never assigned. -/
def syncMonitor (e : Engine) : Engine :=
  if e.meshPresent = false then e
  else
    let m1 := e.morphs.map clampEntry
    let m2 :=
      if e.analyserPresent = false ∧ e.isSpeakingFld = false then
        mouthMorphNames.foldl (decayStep e.dict) m1
      else m1
    { e with morphs := m2 }

/-- The morph-state effect of one `animate()` frame: `updateVisemes`, then
`updateLipSync`, then `syncMonitor` (see the header note on the omitted
subsystems, which do not write morph weights). -/
def tick (e : Engine) : Engine :=
  syncMonitor (updateLipSync (updateVisemes e))

/-- `setVisemeTimeline(timeline)`. -/
def setVisemeTimeline (e : Engine) (tl : List VisemeEntry) : Engine :=
  { e with visemeTimeline := tl, visemeIndex := 0 }

/-- The states of the first `if` branch of `setState` ("speaking or showing
emotion"): these set `isSpeaking = (state === 'speak')` and
`isListening = false`. -/
def speakFocusStates : List String :=
  ["speak", "happy", "empathetic", "laughing", "crying", "surprised", "angry"]

/-- Effect of `setState(state, emotion)` on `this.params` (the remaining
statements of `setState` touch focus, activity time, emotion morphs and the
animation mixer, none of which live in `Params`). `emotion` is `none` for
the JS default `null`; a falsy (empty) emotion string is also not assigned. -/
def setStateParams (p : Params) (state : String) (emotion : Option String) :
    Params :=
  let p1 :=
    { p with
      state := state
      emotion :=
        match emotion with
        | some em => if em = "" then p.emotion else em
        | none => p.emotion }
  if state ∈ speakFocusStates then
    { p1 with isSpeaking := state = "speak", isListening := false }
  else if state = "listening" then
    { p1 with isListening := true, isSpeaking := false }
  else if state = "idle" then
    { p1 with isSpeaking := false, isListening := false }
  else if state = "processing" ∨ state = "thinking" then
    { p1 with isListening := false }
  else p1

/-- The `animationMap` table of `setState` in `src/unnamed/part_001`. -/
def animationMap (s : String) : Option (List String) :=
  if s = "idle" then some ["idle", "blink", "breath", "default"]
  else if s = "speak" then some ["speak", "talk", "speaking", "idle"]
  else if s = "happy" then some ["smile", "happy", "joy", "idle"]
  else if s = "laughing" then some ["laugh", "smile", "happy", "idle"]
  else if s = "empathetic" then some ["sad", "empathetic", "concern", "idle"]
  else if s = "crying" then some ["cry", "sad", "tear", "empathetic", "idle"]
  else if s = "surprised" then some ["surprise", "shock", "amazed", "idle"]
  else if s = "angry" then some ["angry", "mad", "frown", "idle"]
  else if s = "thinking" then some ["think", "ponder", "idle"]
  else if s = "listening" then some ["listen", "idle"]
  else if s = "processing" then some ["thinking", "idle"]
  else none

/-- `animationMap[state] || animationMap.idle` — the candidate animation
names `setState` tries to play. -/
def stateCandidates (s : String) : List String :=
  (animationMap s).getD ["idle", "blink", "breath", "default"]

/-- The state names `setState` treats specially anywhere (flag branches and
animation table keys coincide: the eleven table keys). -/
def knownStates : List String :=
  ["idle", "speak", "happy", "laughing", "empathetic", "crying", "surprised",
    "angry", "thinking", "listening", "processing"]

/-- The `emotionMorphs` table of `_applyEmotionMorphs` (channel name to
target weight, per state/emotion; `idle` resets to neutral). -/
def emotionMorphsTable : List (String × List (String × ℚ)) :=
  [("happy",
    [("browInnerUp", 1/5),
      ("cheekSquintLeft", 2/5), ("cheekSquintRight", 2/5),
      ("mouthSmileLeft", 3/5), ("mouthSmileRight", 3/5),
      ("eyeSquintLeft", 1/5), ("eyeSquintRight", 1/5)]),
    ("laughing",
    [("browInnerUp", 3/10),
      ("cheekSquintLeft", 7/10), ("cheekSquintRight", 7/10),
      ("mouthSmileLeft", 9/10), ("mouthSmileRight", 9/10),
      ("mouthOpen", 2/5), ("jawOpen", 3/10),
      ("eyeSquintLeft", 1/2), ("eyeSquintRight", 1/2)]),
    ("crying",
    [("browInnerUp", 3/5),
      ("browOuterUpLeft", -(3/10)), ("browOuterUpRight", -(3/10)),
      ("eyeSquintLeft", 2/5), ("eyeSquintRight", 2/5),
      ("mouthFrownLeft", 1/2), ("mouthFrownRight", 1/2),
      ("mouthPucker", 1/5), ("jawOpen", 1/10)]),
    ("surprised",
    [("browInnerUp", 4/5), ("browOuterUpLeft", 3/5), ("browOuterUpRight", 3/5),
      ("eyeWideLeft", 7/10), ("eyeWideRight", 7/10),
      ("jawOpen", 2/5), ("mouthOpen", 3/10)]),
    ("angry",
    [("browDownLeft", 7/10), ("browDownRight", 7/10),
      ("noseSneerLeft", 2/5), ("noseSneerRight", 2/5),
      ("jawForward", 3/10),
      ("mouthFrownLeft", 3/10), ("mouthFrownRight", 3/10)]),
    ("thinking",
    [("browInnerUp", 3/10),
      ("eyeLookUpLeft", 2/5), ("eyeLookUpRight", 2/5),
      ("mouthPucker", 3/20)]),
    ("empathetic",
    [("browInnerUp", 2/5),
      ("mouthFrownLeft", 1/5), ("mouthFrownRight", 1/5),
      ("eyeSquintLeft", 3/20), ("eyeSquintRight", 3/20)]),
    ("idle", [])]

/-- `emotionMorphs[state] || emotionMorphs[emotion] || emotionMorphs.idle`
(every table value, including the empty `idle` object, is truthy in JS, so
a table hit short-circuits). -/
def targetMorphsFor (state : String) (emotion : Option String) :
    List (String × ℚ) :=
  match List.lookup state emotionMorphsTable with
  | some m => m
  | none =>
    match emotion.bind fun em => List.lookup em emotionMorphsTable with
    | some m => m
    | none => []

/-- `targetMorphs[key] || 0`. -/
def targetOf (tm : List (String × ℚ)) (k : String) : ℚ :=
  (List.lookup k tm).getD 0

/-- The `emotionKeys` set: union of the channel names of every table entry,
in JS `Set` insertion order. -/
def emotionKeys : List String :=
  (emotionMorphsTable.map Prod.snd).foldl
    (fun acc m =>
      m.foldl (fun acc2 kv => if kv.1 ∈ acc2 then acc2 else acc2 ++ [kv.1]) acc)
    []

/-- Body of the blending loop of `_applyEmotionMorphs` for one key: a key
present in the morph dictionary is blended toward its target. A dictionary
index outside the weight vector is not modelled (the dictionary indexes
the vector by construction). -/
def emorphStep (dict : String → Option ℕ) (tm : List (String × ℚ))
    (acc : List JSNum) (k : String) : List JSNum :=
  match dict k with
  | some idx =>
    match acc.get? idx with
    | some w => acc.set idx (blendStep w (targetOf tm k))
    | none => acc
  | none => acc

/-- The blending loop of `_applyEmotionMorphs`: every key of `emotionKeys`
present in the morph dictionary is blended toward its target (0 for keys
the active entry does not list). -/
def applyEmotionMorphs (dict : String → Option ℕ) (state : String)
    (emotion : Option String) (v : List JSNum) : List JSNum :=
  emotionKeys.foldl (emorphStep dict (targetMorphsFor state emotion)) v

/-- Effect of `setState(state, emotion)` on the modelled engine state:
params update plus the emotion-morph blend (guarded on the mesh and its
dictionary being present — a guard that always fails in execution, since
`this.mesh` is never assigned). Focus, activity time and animation
playback act on fields outside the model. -/
def setState (e : Engine) (state : String) (emotion : Option String) : Engine :=
  { e with
    params := setStateParams e.params state emotion
    morphs :=
      if e.meshPresent then applyEmotionMorphs e.dict state emotion e.morphs
      else e.morphs }

/-- A sequence of external `setState` calls applied to an engine. -/
def runSetState (e : Engine) (calls : List (String × Option String)) : Engine :=
  calls.foldl (fun acc c => setState acc c.1 c.2) e

/-- One display frame as driven from outside: the audio element may change
(or be absent) between frames; then `animate` runs its tick. -/
def frameStep (e : Engine) (a : Option AudioState) : Engine :=
  tick { e with audioEl := a }

/-- A freshly constructed engine (the constructor's field initialisers).
`meshPresent` is `false`: the constructor does not create `this.mesh`, and
no other statement in the repository ever assigns it, so `false` is its
value in every reachable state. -/
def baseEngine : Engine :=
  { meshPresent := false
    dict := fun _ => none
    morphs := []
    morphTargets := []
    visemeTargets := []
    jawPresent := false
    jawRotX := 0
    audioEl := none
    analyserPresent := false
    dataArray := none
    visemeTimeline := []
    visemeIndex := 0
    params := initParams
    wasSpeaking := false
    lastMouthIntensity := 0
    isSpeakingFld := false }

/-- A reachable engine state whose morph vector holds a `NaN` and the
out-of-range value `2`: used to show the Sync Monitor never repairs
them. -/
def engW1 : Engine :=
  { baseEngine with
    morphs := [JSNum.nan, JSNum.val 2] }

/-- Concrete call sequence for the mutual-exclusion witness. -/
def callsW2 : List (String × Option String) :=
  [("listening", none), ("speak", some "happy"), ("processing", none),
    ("weird-state", none), ("idle", none), ("listening", none)]

/-- Two-entry timeline used by the cursor and timeline-player witnesses. -/
def timelineW : List VisemeEntry :=
  [{ viseme := "AA", t0 := 0, t1 := 3/10 }, { viseme := "REST", t0 := 3/10, t1 := 1 }]

/-- Concrete engine for the cursor-monotonicity witness. -/
def engW3 : Engine :=
  { baseEngine with
    visemeTargets := [("AA", 0), ("REST", 1)]
    morphs := [JSNum.val 0, JSNum.val 0]
    visemeTimeline := timelineW }

/-- Clock readings fed to the cursor-monotonicity witness. -/
def framesW3 : List (Option AudioState) :=
  [some { currentTime := 0, paused := false, ended := false },
    some { currentTime := 1/10, paused := false, ended := false },
    none,
    some { currentTime := 1/2, paused := false, ended := false },
    some { currentTime := 5, paused := false, ended := false }]

/-- Morph dictionary exposing only the `mouthSmileLeft` channel. -/
def dictSmile : String → Option ℕ :=
  fun k => if k = "mouthSmileLeft" then some 0 else none

/-- Engine whose `mouthSmileLeft` channel holds a stale emotion weight
`0.51` while the state is `idle` and no audio is attached. -/
def engC5 : Engine :=
  { baseEngine with
    dict := dictSmile
    morphs := [JSNum.val (51/100)] }

/-- Morph dictionary for the fallback-overwrite engine: the two viseme
channels (their names match /viseme/, so they are also collected into the
generic mouth-morph list at load time). -/
def dictC6 : String → Option ℕ :=
  fun k =>
    if k = "viseme_aa" then some 0
    else if k = "viseme_rest" then some 1
    else none

/-- Engine speaking with an active viseme timeline AND a live (silent)
analyser: entry `AA` covers the clock time `0.1`. -/
def engC6 : Engine :=
  { baseEngine with
    dict := dictC6
    morphs := [JSNum.val 0, JSNum.val 0]
    morphTargets := [0, 1]
    visemeTargets := [("AA", 0), ("REST", 1)]
    jawPresent := true
    audioEl := some { currentTime := 1/10, paused := false, ended := false }
    analyserPresent := true
    dataArray := some [0, 0, 0, 0]
    visemeTimeline := timelineW
    params := { initParams with state := "speak", isSpeaking := true } }

/-- Engine for the timeline-player witness, clock inside the first entry. -/
def engW7 : Engine :=
  { baseEngine with
    morphs := [JSNum.val 0, JSNum.val 0]
    visemeTargets := [("AA", 0), ("REST", 1)]
    audioEl := some { currentTime := 1/10, paused := false, ended := false }
    visemeTimeline := timelineW }

/-- Same engine with the clock past the last entry (`t = 5`). -/
def engW7b : Engine :=
  { engW7 with
    audioEl := some { currentTime := 5, paused := false, ended := false } }

/-- Engine for the viseme-application safety witness. -/
def engW10 : Engine :=
  { baseEngine with
    morphs := [JSNum.val (1/2), JSNum.val (1/2)]
    visemeTargets := [("AA", 0), ("REST", 1)] }


/-- The presence-flag pair after `setState(s)` as a function of the
previous flags and the state argument (the amended C8 description):
`speak` turns speaking on; the other focus states and `idle` clear both;
`listening` turns listening on; `processing`/`thinking` clear only
`isListening` and keep `isSpeaking`; unknown names change neither flag. -/
def flagsAfterSetState (p : Params) (s : String) : Bool × Bool :=
  if s ∈ speakFocusStates then (decide (s = "speak"), false)
  else if s = "listening" then (false, true)
  else if s = "idle" then (false, false)
  else if s = "processing" ∨ s = "thinking" then (p.isSpeaking, false)
  else (p.isSpeaking, p.isListening)

/-! ### Lemmas about write sequences -/

theorem length_writeSeq (ws : List (ℕ × JSNum)) (m : List JSNum) :
    (writeSeq ws m).length = m.length := by
  induction ws generalizing m with
  | nil => rfl
  | cons w rest ih =>
    show (writeSeq rest (m.set w.1 w.2)).length = m.length
    rw [ih, List.length_set]

theorem get?_writeSeq (ws : List (ℕ × JSNum)) (m : List JSNum) (j : ℕ) :
    (writeSeq ws m).get? j =
      match lastWrite ws j with
      | some v => if j < m.length then some v else none
      | none => m.get? j := by
  induction ws generalizing m with
  | nil => rfl
  | cons w rest ih =>
    show (writeSeq rest (m.set w.1 w.2)).get? j = _
    rw [ih]
    cases h : lastWrite rest j with
    | some v =>
      simp only [lastWrite, h, List.length_set]
    | none =>
      simp only [lastWrite, h, List.length_set]
      by_cases hj : w.1 = j
      · subst hj
        by_cases hl : w.1 < m.length
        · rw [List.get?_set_eq_of_lt _ hl]
          simp [hl]
        · have hge : m.length ≤ w.1 := Nat.le_of_not_lt hl
          rw [List.get?_eq_none.2 (by simpa [List.length_set] using hge)]
          simp [hl]
      · rw [List.get?_set_ne _ _ hj]
        simp [hj]

theorem writeSeq_append (ws1 ws2 : List (ℕ × JSNum)) (m : List JSNum) :
    writeSeq (ws1 ++ ws2) m = writeSeq ws2 (writeSeq ws1 m) := by
  simp [writeSeq, List.foldl_append]

theorem writeSeq_idem (ws : List (ℕ × JSNum)) (m : List JSNum) :
    writeSeq ws (writeSeq ws m) = writeSeq ws m := by
  apply List.ext_get?
  intro j
  rw [get?_writeSeq, get?_writeSeq]
  cases h : lastWrite ws j with
  | some v => simp [h, length_writeSeq]
  | none => simp [h]

theorem lastWrite_append (ws1 ws2 : List (ℕ × JSNum)) (j : ℕ) :
    lastWrite (ws1 ++ ws2) j =
      match lastWrite ws2 j with
      | some v => some v
      | none => lastWrite ws1 j := by
  induction ws1 with
  | nil => cases h : lastWrite ws2 j <;> simp [h, lastWrite]
  | cons w rest ih =>
    show lastWrite (w :: (rest ++ ws2)) j = _
    simp only [lastWrite, ih]
    cases h : lastWrite ws2 j <;> cases h2 : lastWrite rest j <;> simp [h, h2]

theorem lastWrite_map_const {α : Type} (f : α → ℕ) (l : List α) (c : JSNum)
    (j : ℕ) :
    lastWrite (l.map fun x => (f x, c)) j =
      if j ∈ l.map f then some c else none := by
  induction l with
  | nil => rfl
  | cons x rest ih =>
    show lastWrite ((f x, c) :: rest.map _) j = _
    simp only [lastWrite, ih]
    by_cases hj : j ∈ rest.map f
    · simp [hj]
    · by_cases hx : f x = j
      · simp [hj, hx]
      · have hne : ¬ j = f x := fun h => hx h.symm
        simp [hj, hx, hne]

/-! ### Sync Monitor lemmas -/

theorem meshPresent_updateVisemes (e : Engine) :
    (updateVisemes e).meshPresent = e.meshPresent := by
  unfold updateVisemes
  split
  · rfl
  · dsimp only
    split
    · rfl
    · split
      · rfl
      · split <;> rfl

theorem meshPresent_updateLipSync (e : Engine) :
    (updateLipSync e).meshPresent = e.meshPresent := by
  unfold updateLipSync
  split
  · dsimp only
    split
    · rfl
    · split
      · rfl
      · split <;> rfl
  · rfl

theorem syncMonitor_skip (e : Engine) (h : e.meshPresent = false) :
    syncMonitor e = e := by
  unfold syncMonitor
  rw [h]
  rw [if_pos rfl]

/-- C1 (code bug): `this.mesh` is never assigned anywhere in the
repository — the loader populates `modelRoot`, `morphTargets` and
`visemeTargets` only — so `syncMonitor` hits its `if (!this.mesh) return;`
guard on every tick and is the identity on every reachable engine state
(`meshPresent = false`): the clamp scan is dead code, a tick reduces to
the viseme and lip-sync passes, and `NaN` or out-of-range morph entries
survive the Sync Monitor — contradicting the claim and the monitor's own
doc comment ("Checks mouth, nose, face elements and auto-corrects
drift"). -/
theorem syncMonitor_never_clamps (e : Engine) (h : e.meshPresent = false) :
    syncMonitor e = e ∧ tick e = updateLipSync (updateVisemes e) := by
  refine ⟨syncMonitor_skip e h, ?_⟩
  show syncMonitor _ = _
  apply syncMonitor_skip
  rw [meshPresent_updateLipSync, meshPresent_updateVisemes]
  exact h

/-- Witness for C1 at the reachable engine `engW1`: the `NaN` and the
out-of-range `2` in its morph vector survive a full tick untouched. -/
theorem syncMonitor_never_clamps_witness :
    (tick engW1).morphs = [JSNum.nan, JSNum.val 2] ∧
    inRangeB JSNum.nan = false ∧
    inRangeB (JSNum.val 2) = false :=
  ⟨(congrArg Engine.morphs (syncMonitor_never_clamps engW1 rfl).2).trans
      (by with_unfolding_all decide),
    by decide, by with_unfolding_all decide⟩

/-! ### Presence flags -/

theorem setStateParams_flags (p : Params) (s : String) (em : Option String)
    (h : p.isSpeaking = false ∨ p.isListening = false) :
    (setStateParams p s em).isSpeaking = false ∨
      (setStateParams p s em).isListening = false := by
  unfold setStateParams
  dsimp only
  split_ifs with h1 h2 h3 h4
  · right; rfl
  · left; rfl
  · left; rfl
  · right; rfl
  · exact h

theorem runSetState_flags (calls : List (String × Option String)) :
    ∀ e : Engine,
      (e.params.isSpeaking = false ∨ e.params.isListening = false) →
      ((runSetState e calls).params.isSpeaking = false ∨
        (runSetState e calls).params.isListening = false) := by
  induction calls with
  | nil => intro e h; exact h
  | cons c rest ih =>
    intro e h
    show (runSetState (setState e c.1 c.2) rest).params.isSpeaking = false ∨ _
    exact ih _ (setStateParams_flags e.params c.1 c.2 h)

/-- C2: starting from an engine whose presence flags are both false (in
particular the freshly constructed one), after any finite sequence of
`setState` calls with arbitrary known or unknown state names and emotions,
`isSpeaking` and `isListening` are never both true. -/
theorem setState_flags_mutually_exclusive (e : Engine)
    (calls : List (String × Option String))
    (hS : e.params.isSpeaking = false) (hL : e.params.isListening = false) :
    ¬((runSetState e calls).params.isSpeaking = true ∧
      (runSetState e calls).params.isListening = true) := by
  rcases runSetState_flags calls e (Or.inl hS) with h | h <;> simp [h]

/-- Witness for C2: a concrete six-call sequence mixing speaking, listening,
processing, unknown and idle states. -/
theorem setState_flags_mutually_exclusive_witness :
    ¬((runSetState baseEngine callsW2).params.isSpeaking = true ∧
      (runSetState baseEngine callsW2).params.isListening = true) :=
  setState_flags_mutually_exclusive baseEngine callsW2 rfl rfl

/-! ### Viseme cursor lemmas -/

theorem le_advanceCursorFuel (fuel : ℕ) (tl : List VisemeEntry) (t : ℚ) :
    ∀ i, i ≤ advanceCursorFuel fuel tl t i := by
  induction fuel with
  | zero => intro i; exact le_refl i
  | succ f ih =>
    intro i
    unfold advanceCursorFuel
    split
    · exact le_trans (Nat.le_succ i) (ih (i + 1))
    · exact le_refl i

theorem advanceCursorFuel_bound (fuel : ℕ) (tl : List VisemeEntry) (t : ℚ) :
    ∀ i, i + 1 ≤ tl.length → advanceCursorFuel fuel tl t i + 1 ≤ tl.length := by
  induction fuel with
  | zero => intro i h; exact h
  | succ f ih =>
    intro i h
    unfold advanceCursorFuel
    split
    case isTrue hc => exact ih (i + 1) (by obtain ⟨hc1, -⟩ := hc; omega)
    case isFalse hc => exact h

theorem visemeIndex_syncMonitor (e : Engine) :
    (syncMonitor e).visemeIndex = e.visemeIndex := by
  unfold syncMonitor
  split <;> rfl

theorem visemeTimeline_syncMonitor (e : Engine) :
    (syncMonitor e).visemeTimeline = e.visemeTimeline := by
  unfold syncMonitor
  split <;> rfl

theorem visemeIndex_updateLipSync (e : Engine) :
    (updateLipSync e).visemeIndex = e.visemeIndex := by
  unfold updateLipSync
  split
  · dsimp only
    split
    · rfl
    · split
      · rfl
      · split <;> rfl
  · rfl

theorem visemeTimeline_updateLipSync (e : Engine) :
    (updateLipSync e).visemeTimeline = e.visemeTimeline := by
  unfold updateLipSync
  split
  · dsimp only
    split
    · rfl
    · split
      · rfl
      · split <;> rfl
  · rfl

theorem visemeTimeline_updateVisemes (e : Engine) :
    (updateVisemes e).visemeTimeline = e.visemeTimeline := by
  unfold updateVisemes
  split
  · rfl
  · dsimp only
    split
    · rfl
    · split
      · rfl
      · split <;> rfl

theorem visemeIndex_updateVisemes (e : Engine) :
    (updateVisemes e).visemeIndex =
      match e.audioEl with
      | none => e.visemeIndex
      | some a =>
        if e.visemeTimeline.length = 0 then e.visemeIndex
        else advanceCursor e.visemeTimeline a.currentTime e.visemeIndex := by
  unfold updateVisemes
  split
  · rfl
  · dsimp only
    split
    · rfl
    · split
      · rfl
      · split <;> rfl

theorem frameStep_visemeTimeline (e : Engine) (a : Option AudioState) :
    (frameStep e a).visemeTimeline = e.visemeTimeline := by
  show (syncMonitor (updateLipSync (updateVisemes _))).visemeTimeline = _
  rw [visemeTimeline_syncMonitor, visemeTimeline_updateLipSync,
    visemeTimeline_updateVisemes]

theorem frameStep_visemeIndex_ge (e : Engine) (a : Option AudioState) :
    e.visemeIndex ≤ (frameStep e a).visemeIndex := by
  show e.visemeIndex ≤ (syncMonitor (updateLipSync (updateVisemes _))).visemeIndex
  rw [visemeIndex_syncMonitor, visemeIndex_updateLipSync, visemeIndex_updateVisemes]
  cases a with
  | none => exact le_refl _
  | some aa =>
    dsimp only
    split
    · exact le_refl _
    · exact le_advanceCursorFuel _ _ _ _

theorem frameStep_visemeIndex_bound (e : Engine) (a : Option AudioState)
    (h : e.visemeIndex + 1 ≤ e.visemeTimeline.length) :
    (frameStep e a).visemeIndex + 1 ≤ (frameStep e a).visemeTimeline.length := by
  rw [frameStep_visemeTimeline]
  show (syncMonitor (updateLipSync (updateVisemes _))).visemeIndex + 1 ≤ _
  rw [visemeIndex_syncMonitor, visemeIndex_updateLipSync, visemeIndex_updateVisemes]
  cases a with
  | none => exact h
  | some aa =>
    dsimp only
    split
    · exact h
    · exact advanceCursorFuel_bound _ _ _ _ h

theorem chain'_le_scanl {β : Type} (f : Engine → β → Engine)
    (hstep : ∀ x b, x.visemeIndex ≤ (f x b).visemeIndex) :
    ∀ (l : List β) (x : Engine),
      ((List.scanl f x l).map Engine.visemeIndex).Chain' (· ≤ ·) := by
  intro l
  induction l with
  | nil =>
    intro x
    simp [List.scanl_nil]
  | cons b m ih =>
    intro x
    rw [List.scanl_cons]
    simp only [List.singleton_append, List.map_cons]
    rw [List.chain'_cons']
    refine ⟨?_, ih (f x b)⟩
    intro y hy
    cases m with
    | nil =>
      simp [List.scanl_nil] at hy
      rw [← hy]
      exact hstep x b
    | cons c mm =>
      rw [List.scanl_cons] at hy
      simp only [List.singleton_append, List.map_cons, List.head?_cons,
        Option.mem_def, Option.some.injEq] at hy
      rw [← hy]
      exact hstep x b

theorem scanl_invariant {β : Type} (f : Engine → β → Engine) (P : Engine → Prop)
    (hstep : ∀ x b, P x → P (f x b)) :
    ∀ (l : List β) (x : Engine), P x → ∀ y ∈ List.scanl f x l, P y := by
  intro l
  induction l with
  | nil =>
    intro x hx y hy
    simp [List.scanl_nil] at hy
    rwa [hy]
  | cons b m ih =>
    intro x hx y hy
    rw [List.scanl_cons] at hy
    simp only [List.singleton_append, List.mem_cons] at hy
    rcases hy with rfl | hy
    · exact hx
    · exact ih (f x b) (hstep x b hx) y hy

/-- C3: for a fixed timeline (the tick never changes it, and no
`setVisemeTimeline` intervenes) the viseme cursor is monotone
non-decreasing across successive frames and never passes the index of the
last timeline entry. Holds for arbitrary per-frame clock readings — in
particular for the monotonically non-decreasing ones of the claim. -/
theorem visemeIndex_monotone_bounded (e : Engine)
    (frames : List (Option AudioState))
    (h : e.visemeIndex + 1 ≤ e.visemeTimeline.length) :
    ((List.scanl frameStep e frames).map Engine.visemeIndex).Chain' (· ≤ ·) ∧
    (∀ e' ∈ List.scanl frameStep e frames,
      e'.visemeTimeline = e.visemeTimeline ∧
      e'.visemeIndex + 1 ≤ e.visemeTimeline.length) := by
  constructor
  · exact chain'_le_scanl frameStep frameStep_visemeIndex_ge frames e
  · intro e' he'
    have hinv := scanl_invariant frameStep
      (fun x => x.visemeTimeline = e.visemeTimeline ∧
        x.visemeIndex + 1 ≤ x.visemeTimeline.length)
      (fun x b hx =>
        ⟨(frameStep_visemeTimeline x b).trans hx.1,
          frameStep_visemeIndex_bound x b hx.2⟩)
      frames e ⟨rfl, h⟩ e' he'
    exact ⟨hinv.1, hinv.1 ▸ hinv.2⟩

/-- Witness for C3: a concrete two-entry timeline driven by five frames
(clock 0, 0.1, a frame with no audio, 0.5, 5). -/
theorem visemeIndex_monotone_bounded_witness :
    ((List.scanl frameStep engW3 framesW3).map Engine.visemeIndex).Chain'
      (· ≤ ·) :=
  (visemeIndex_monotone_bounded engW3 framesW3 (by with_unfolding_all decide)).1

/-! ### setState validation behaviour -/

theorem setStateParams_state (p : Params) (s : String) (em : Option String) :
    (setStateParams p s em).state = s := by
  unfold setStateParams
  dsimp only
  split_ifs <;> rfl

/-- C4 counterexample: calling `setState` with the unknown state name
`"warp"` does not retain the previous stored state `"idle"` — the unknown
name is assigned to `params.state` (and, the embedding being total, no
error is surfaced). -/
theorem setState_unknown_rejected_cex :
    initParams.state = "idle" ∧
    (setStateParams initParams "warp" none).state = "warp" := by
  with_unfolding_all decide

/-- C4 (amended): `setState` performs no validation at the Presence Store
boundary: an unknown state name is stored in `params.state`, the presence
flags are left unchanged, no error is raised (the function is total), and
the animation lookup falls back to the idle candidate list. -/
theorem setState_unknown_accepted (p : Params) (em : Option String)
    (s : String) (h : s ∉ knownStates) :
    (setStateParams p s em).state = s ∧
    (setStateParams p s em).isSpeaking = p.isSpeaking ∧
    (setStateParams p s em).isListening = p.isListening ∧
    stateCandidates s = ["idle", "blink", "breath", "default"] := by
  simp only [knownStates, List.mem_cons, List.not_mem_nil, or_false,
    not_or] at h
  obtain ⟨h1, h2, h3, h4, h5, h6, h7, h8, h9, h10, h11⟩ := h
  have hsf : s ∉ speakFocusStates := by
    simp only [speakFocusStates, List.mem_cons, List.not_mem_nil, or_false,
      not_or]
    exact ⟨h2, h3, h5, h4, h6, h7, h8⟩
  have hpt : ¬(s = "processing" ∨ s = "thinking") := not_or.2 ⟨h11, h9⟩
  refine ⟨setStateParams_state p s em, ?_, ?_, ?_⟩
  · unfold setStateParams
    dsimp only
    rw [if_neg hsf, if_neg h10, if_neg h1, if_neg hpt]
  · unfold setStateParams
    dsimp only
    rw [if_neg hsf, if_neg h10, if_neg h1, if_neg hpt]
  · simp [stateCandidates, animationMap, h1, h2, h3, h4, h5, h6, h7, h8,
      h9, h10, h11]

/-- Witness for the amended C4 at the concrete unknown name `"zzz"`. -/
theorem setState_unknown_accepted_witness :
    (setStateParams initParams "zzz" none).state = "zzz" ∧
    (setStateParams initParams "zzz" none).isSpeaking = initParams.isSpeaking ∧
    (setStateParams initParams "zzz" none).isListening = initParams.isListening ∧
    stateCandidates "zzz" = ["idle", "blink", "breath", "default"] :=
  setState_unknown_accepted initParams none "zzz" (by with_unfolding_all decide)

/-- C8 (amended): the presence flags after `setState` are given by
`flagsAfterSetState` — a function of the state argument AND the previous
flags: `speak` sets the speaking flag, the remaining focus states, `idle`
and `listening` fully determine both flags, but `processing`/`thinking`
keep the previous `isSpeaking`, and unknown names keep both previous
flags. The flags are therefore not a pure function of the state argument
alone. -/
theorem setStateParams_flags_table (p : Params) (s : String)
    (em : Option String) :
    ((setStateParams p s em).isSpeaking, (setStateParams p s em).isListening)
      = flagsAfterSetState p s := by
  unfold setStateParams flagsAfterSetState
  dsimp only
  split_ifs <;> rfl

/-- C8 counterexample: after `setState('speak')`, a `setState('processing')`
call leaves `isSpeaking = true`, and after `setState('listening')` an
unknown state name leaves `isListening = true` — the claim says both calls
yield `false` for these flags regardless of the previous state. -/
theorem setState_flags_pure_function_cex :
    (setStateParams (setStateParams initParams "speak" none)
      "processing" none).isSpeaking = true ∧
    (setStateParams (setStateParams initParams "listening" none)
      "mystery" none).isListening = true := by
  with_unfolding_all decide

/-! ### Emotion morph blending -/

/-- C5 (code bug): `_applyEmotionMorphs` early-returns on
`if (!this.mesh || !this.mesh.morphTargetDictionary) return;` in every
execution, because `this.mesh` is never assigned anywhere in the
repository; and the per-frame tick never invokes the blender at all (it
is called only from `setState`). So no emotion channel is ever blended:
`setState` leaves the morph-weight vector unchanged for every state and
emotion argument, stale channels are never released toward `0`, and the
claim's per-tick `weight += (target - weight) * 0.15` never executes —
against the function's own doc comment ("Smoothly blend toward target
values"). -/
theorem emotion_blend_never_runs (e : Engine) (h : e.meshPresent = false)
    (s : String) (em : Option String) :
    (setState e s em).morphs = e.morphs ∧
    (tick e).morphs = (updateLipSync (updateVisemes e)).morphs := by
  constructor
  · show (if e.meshPresent then applyEmotionMorphs e.dict s em e.morphs
      else e.morphs) = e.morphs
    rw [h]
    simp
  · have h2 : (updateLipSync (updateVisemes e)).meshPresent = false := by
      rw [meshPresent_updateLipSync, meshPresent_updateVisemes]
      exact h
    show (syncMonitor _).morphs = _
    rw [syncMonitor_skip _ h2]

set_option maxRecDepth 40000 in
/-- Witness for C5 at `engC5`: the stale `mouthSmileLeft` weight `0.51`
(a union channel whose target under the active `idle` state is `0`) is
untouched both by a `setState('idle')` call and by a full tick, instead
of moving to `0.51 + (0 - 0.51) * 0.15`. -/
theorem emotion_blend_never_runs_witness :
    (setState engC5 "idle" none).morphs = [JSNum.val (51/100)] ∧
    (tick engC5).morphs = [JSNum.val (51/100)] ∧
    blendStep (JSNum.val (51/100))
      (targetOf (targetMorphsFor "idle" none) "mouthSmileLeft") ≠
      JSNum.val (51/100) :=
  ⟨((emotion_blend_never_runs engC5 rfl "idle" none).1).trans
      (by with_unfolding_all decide),
    ((emotion_blend_never_runs engC5 rfl "idle" none).2).trans
      (by with_unfolding_all decide),
    by with_unfolding_all decide⟩

/-! ### Audio-amplitude fallback vs. the viseme timeline -/

set_option maxRecDepth 40000 in
/-- C6 counterexample: in engine `engC6` the clock time `0.1` lies inside
the current timeline entry (`AA`, `[0, 0.3]`), so the Viseme Timeline
Player writes `0.95` to the `AA` channel — but the full tick ends with
that channel holding the amplitude-driven value `0` because
`updateLipSync` runs afterwards, never consults the timeline, and
overwrites every registered mouth morph (the viseme channels included).
The claim says the fallback leaves the timeline player's values unchanged
in this situation. -/
theorem fallback_overwrites_timeline_cex :
    engC6.params.isSpeaking = true ∧
    engC6.visemeTimeline.get? engC6.visemeIndex =
      some { viseme := "AA", t0 := 0, t1 := 3/10 } ∧
    (updateVisemes engC6).morphs.get? 0 = some (JSNum.val (19/20)) ∧
    (tick engC6).morphs.get? 0 = some (JSNum.val 0) := by
  with_unfolding_all decide

/-- C6 (amended): the Audio-Amplitude Fallback checks only `isSpeaking`
and the attached audio/analyser state — it never consults the Viseme
Timeline (its result is invariant under replacing the timeline and
cursor) — and whenever its speaking branch runs it overwrites every
registered generic mouth-morph channel (which at load time include the
viseme channels, whose names match the mouth pattern) with the
amplitude-driven value, clobbering anything the Viseme Timeline Player
wrote earlier in the same tick. -/
theorem updateLipSync_ignores_timeline (e : Engine) :
    (∀ tl i, (updateLipSync
        { e with visemeTimeline := tl, visemeIndex := i }).morphs
      = (updateLipSync e).morphs) ∧
    (∀ d a, e.dataArray = some d → e.audioEl = some a →
      e.analyserPresent = true → e.params.isSpeaking = true →
      a.paused = false → a.ended = false →
      ∀ i ∈ e.morphTargets, i < e.morphs.length →
        (updateLipSync e).morphs.get? i =
          some (JSNum.val (smoothedIntensity d e.lastMouthIntensity * (17/20)))) := by
  constructor
  · intro tl i
    show (updateLipSync _).morphs = _
    unfold updateLipSync
    dsimp only
    cases hd : e.dataArray with
    | none => rfl
    | some d =>
      cases ha : e.audioEl with
      | none => rfl
      | some a =>
        dsimp only
        split_ifs <;> rfl
  · intro d a hd ha han hsp hp hend i hi hlen
    unfold updateLipSync
    rw [hd, ha]
    simp only [han, hsp, hp, hend]
    simp only [Bool.true_eq_false, if_false, and_self, if_true]
    rw [get?_writeSeq]
    rw [lastWrite_map_const (fun x => x) e.morphTargets]
    simp only [List.map_id']
    rw [if_pos hi]
    dsimp only
    rw [if_pos hlen]

set_option maxRecDepth 40000 in
/-- Witness for the amended C6 at the concrete speaking engine with an
active timeline and silent analyser data. -/
theorem updateLipSync_ignores_timeline_witness :
    (updateLipSync engC6).morphs.get? 0 =
      some (JSNum.val (smoothedIntensity [0, 0, 0, 0] 0 * (17/20))) :=
  (updateLipSync_ignores_timeline engC6).2 [0, 0, 0, 0]
    { currentTime := 1/10, paused := false, ended := false }
    (by with_unfolding_all decide) (by with_unfolding_all decide)
    (by with_unfolding_all decide) (by with_unfolding_all decide)
    (by with_unfolding_all decide) (by with_unfolding_all decide)
    0 (by with_unfolding_all decide) (by with_unfolding_all decide)

/-! ### Viseme application -/

theorem lookup_mem_snd {k : String} {l : List (String × ℕ)} {b : ℕ}
    (h : List.lookup k l = some b) : b ∈ l.map Prod.snd := by
  induction l with
  | nil => exact Option.noConfusion h
  | cons p rest ih =>
    simp only [List.lookup] at h
    split at h
    · injection h with h2
      rw [← h2]
      simp
    · simp only [List.map_cons, List.mem_cons]
      exact Or.inr (ih h)

theorem visemeSel_mem_snd {vts : List (String × ℕ)} {v : String} {s : ℕ}
    (h : visemeSel vts v = some s) : s ∈ vts.map Prod.snd := by
  unfold visemeSel at h
  split at h
  · injection h with h2
    subst h2
    exact lookup_mem_snd (by assumption)
  · exact lookup_mem_snd h

theorem get?_applyViseme (vts : List (String × ℕ)) (v : String) (q : ℚ)
    (m : List JSNum) (hb : ∀ p ∈ vts, p.2 < m.length) :
    ∀ p ∈ vts,
      (writeSeq (applyVisemeWrites vts v q) m).get? p.2 =
        some (if visemeSel vts v = some p.2 then JSNum.val (clamp01 q)
          else JSNum.val 0) := by
  intro p hp
  have hne : vts ≠ [] := by
    intro h
    rw [h] at hp
    exact List.not_mem_nil p hp
  have hlen : p.2 < m.length := hb p hp
  have hzero : lastWrite (vts.map fun x => (x.2, JSNum.val 0)) p.2 =
      some (JSNum.val 0) := by
    rw [lastWrite_map_const (fun x => x.2) vts]
    rw [if_pos (List.mem_map_of_mem _ hp)]
  unfold applyVisemeWrites
  rw [if_neg hne, get?_writeSeq, lastWrite_append]
  cases hsel : visemeSel vts v with
  | some s =>
    by_cases hsp : s = p.2
    · subst hsp
      simp [lastWrite, hlen]
    · have hlw : lastWrite [(s, JSNum.val (clamp01 q))] p.2 = none := by
        simp [lastWrite, hsp]
      rw [hlw, hzero]
      simp [hlen, hsp]
  | none =>
    rw [show lastWrite [] p.2 = none from rfl, hzero]
    simp [hlen]

theorem get?_applyViseme_untouched (vts : List (String × ℕ)) (v : String)
    (q : ℚ) (m : List JSNum) (j : ℕ) (hj : j ∉ vts.map Prod.snd) :
    (writeSeq (applyVisemeWrites vts v q) m).get? j = m.get? j := by
  unfold applyVisemeWrites
  by_cases hne : vts = []
  · rw [if_pos hne]
    rfl
  · rw [if_neg hne, get?_writeSeq, lastWrite_append]
    have hzero : lastWrite (vts.map fun x => (x.2, JSNum.val 0)) j = none := by
      rw [lastWrite_map_const (fun x => x.2) vts]
      rw [if_neg hj]
    cases hsel : visemeSel vts v with
    | some s =>
      have hsj : ¬(s = j) := fun h => hj (h ▸ visemeSel_mem_snd hsel)
      have hlw : lastWrite [(s, JSNum.val (clamp01 q))] j = none := by
        simp [lastWrite, hsj]
      rw [hlw, hzero]
    | none =>
      rw [show lastWrite [] j = none from rfl, hzero]

/-- C7: whenever the viseme timeline player ticks with a non-empty
timeline and an audio clock present, every registered viseme channel gets:
the cursor entry's selected channel `0.95` and all others `0` when the
clock time lies within `[t0, t1]` of that entry; otherwise (clock before
the first entry or after the last included) the `REST`-selected channel
`0.2` and all others `0`. -/
theorem updateVisemes_active_or_rest (e : Engine) (a : AudioState)
    (ha : e.audioEl = some a) (hne : e.visemeTimeline ≠ [])
    (hb : ∀ p ∈ e.visemeTargets, p.2 < e.morphs.length)
    (cur : VisemeEntry)
    (hcur : e.visemeTimeline.get?
      (advanceCursor e.visemeTimeline a.currentTime e.visemeIndex) = some cur) :
    ∀ p ∈ e.visemeTargets,
      (updateVisemes e).morphs.get? p.2 =
        some (if cur.t0 ≤ a.currentTime ∧ a.currentTime ≤ cur.t1 then
            (if visemeSel e.visemeTargets cur.viseme = some p.2 then
              JSNum.val (19/20) else JSNum.val 0)
          else
            (if visemeSel e.visemeTargets "REST" = some p.2 then
              JSNum.val (1/5) else JSNum.val 0)) := by
  intro p hp
  have hc1 : clamp01 (19/20) = (19/20 : ℚ) := by
    unfold clamp01
    rw [min_eq_right (by norm_num), max_eq_right (by norm_num)]
  have hc2 : clamp01 (1/5) = (1/5 : ℚ) := by
    unfold clamp01
    rw [min_eq_right (by norm_num), max_eq_right (by norm_num)]
  unfold updateVisemes
  rw [ha]
  dsimp only
  rw [if_neg (by simpa [List.length_eq_zero] using hne)]
  rw [hcur]
  dsimp only
  by_cases ht : cur.t0 ≤ a.currentTime ∧ a.currentTime ≤ cur.t1
  · rw [if_pos ht, if_pos ht]
    have h := get?_applyViseme e.visemeTargets cur.viseme (19/20) e.morphs hb p hp
    rw [hc1] at h
    exact h
  · rw [if_neg ht, if_neg ht]
    have h := get?_applyViseme e.visemeTargets "REST" (1/5) e.morphs hb p hp
    rw [hc2] at h
    exact h

set_option maxRecDepth 40000 in
/-- Witness for C7: the Scenario-A timeline; at `t = 0.1` the cursor entry
is `AA` and its channel reads `0.95` with `REST` reading `0`; at `t = 5`
(past the last entry) the `REST` channel reads `0.2`. -/
theorem updateVisemes_active_or_rest_witness :
    (updateVisemes engW7).morphs.get? 0 = some (JSNum.val (19/20)) ∧
    (updateVisemes engW7).morphs.get? 1 = some (JSNum.val 0) ∧
    (updateVisemes engW7b).morphs.get? 1 = some (JSNum.val (1/5)) := by
  refine ⟨?_, ?_, ?_⟩
  · have h := updateVisemes_active_or_rest engW7
      { currentTime := 1/10, paused := false, ended := false }
      (by with_unfolding_all decide) (by with_unfolding_all decide)
      (by with_unfolding_all decide) { viseme := "AA", t0 := 0, t1 := 3/10 }
      (by with_unfolding_all decide) ("AA", 0) (by with_unfolding_all decide)
    rw [h]
    with_unfolding_all decide
  · have h := updateVisemes_active_or_rest engW7
      { currentTime := 1/10, paused := false, ended := false }
      (by with_unfolding_all decide) (by with_unfolding_all decide)
      (by with_unfolding_all decide) { viseme := "AA", t0 := 0, t1 := 3/10 }
      (by with_unfolding_all decide) ("REST", 1) (by with_unfolding_all decide)
    rw [h]
    with_unfolding_all decide
  · have h := updateVisemes_active_or_rest engW7b
      { currentTime := 5, paused := false, ended := false }
      (by with_unfolding_all decide) (by with_unfolding_all decide)
      (by with_unfolding_all decide) { viseme := "REST", t0 := 3/10, t1 := 1 }
      (by with_unfolding_all decide) ("REST", 1) (by with_unfolding_all decide)
    rw [h]
    with_unfolding_all decide

/-! ### Mouth reset -/

theorem resetMouth_morphs (e : Engine) :
    (resetMouth e).morphs =
      writeSeq ((e.morphTargets.map fun i => (i, JSNum.val 0)) ++
        applyVisemeWrites e.visemeTargets "REST" (1/10)) e.morphs := by
  rw [writeSeq_append]
  rfl

theorem resetMouth_jawPresent (e : Engine) :
    (resetMouth e).jawPresent = e.jawPresent := rfl

theorem resetMouth_jawRotX (e : Engine) :
    (resetMouth e).jawRotX = if e.jawPresent then 0 else e.jawRotX := rfl

/-- C9: the post-speech mouth reset is idempotent — for any engine state,
running `resetMouth` twice leaves the jaw rotation and the whole
morph-weight vector (hence every mouth and viseme channel) exactly as
after the first run. -/
theorem resetMouth_idempotent (e : Engine) :
    (resetMouth (resetMouth e)).jawRotX = (resetMouth e).jawRotX ∧
    (resetMouth (resetMouth e)).morphs = (resetMouth e).morphs := by
  constructor
  · rw [resetMouth_jawRotX (resetMouth e), resetMouth_jawPresent,
      resetMouth_jawRotX e]
    by_cases hj : e.jawPresent <;> simp [hj]
  · rw [resetMouth_morphs (resetMouth e), resetMouth_morphs e]
    exact writeSeq_idem _ e.morphs

/-- C10: every viseme application writes only values in `[0, 1]`: the
selected channel gets the intensity clamped into `[0, 1]`, every other
registered viseme channel is set to exactly `0`, an unknown or missing
viseme code falls back to the `REST` channel (no error is possible — the
function is total), and indices outside the viseme registry are untouched. -/
theorem applyViseme_safe (e : Engine) (v : String) (q : ℚ)
    (hb : ∀ p ∈ e.visemeTargets, p.2 < e.morphs.length) :
    (∀ p ∈ e.visemeTargets, ∃ r : ℚ,
      (applyViseme e v q).morphs.get? p.2 = some (JSNum.val r) ∧
      0 ≤ r ∧ r ≤ 1) ∧
    (∀ p ∈ e.visemeTargets, visemeSel e.visemeTargets v ≠ some p.2 →
      (applyViseme e v q).morphs.get? p.2 = some (JSNum.val 0)) ∧
    (List.lookup (normKey v) e.visemeTargets = none →
      visemeSel e.visemeTargets v = List.lookup "REST" e.visemeTargets) ∧
    (∀ j, j ∉ e.visemeTargets.map Prod.snd →
      (applyViseme e v q).morphs.get? j = e.morphs.get? j) := by
  refine ⟨?_, ?_, ?_, ?_⟩
  · intro p hp
    have h := get?_applyViseme e.visemeTargets v q e.morphs hb p hp
    by_cases hsel : visemeSel e.visemeTargets v = some p.2
    · rw [if_pos hsel] at h
      refine ⟨clamp01 q, h, le_max_left _ _, ?_⟩
      exact max_le (by norm_num) (min_le_left 1 q)
    · rw [if_neg hsel] at h
      exact ⟨0, h, le_refl 0, by norm_num⟩
  · intro p hp hsel
    have h := get?_applyViseme e.visemeTargets v q e.morphs hb p hp
    rw [if_neg hsel] at h
    exact h
  · intro hnone
    unfold visemeSel
    rw [hnone]
  · intro j hj
    exact get?_applyViseme_untouched e.visemeTargets v q e.morphs j hj

set_option maxRecDepth 40000 in
/-- Witness for C10 at the unknown viseme code `"zz"` with the
out-of-range intensity `3.5`: the non-selected `AA` channel reads `0`, the
selection falls back to `REST`, and an unregistered index is untouched. -/
theorem applyViseme_safe_witness :
    (applyViseme engW10 "zz" (7/2)).morphs.get? 0 = some (JSNum.val 0) ∧
    visemeSel engW10.visemeTargets "zz" =
      List.lookup "REST" engW10.visemeTargets ∧
    (applyViseme engW10 "zz" (7/2)).morphs.get? 5 = engW10.morphs.get? 5 := by
  refine ⟨?_, ?_, ?_⟩
  · exact (applyViseme_safe engW10 "zz" (7/2)
      (by with_unfolding_all decide)).2.1 ("AA", 0)
      (by with_unfolding_all decide) (by with_unfolding_all decide)
  · exact (applyViseme_safe engW10 "zz" (7/2)
      (by with_unfolding_all decide)).2.2.1 (by with_unfolding_all decide)
  · exact (applyViseme_safe engW10 "zz" (7/2)
      (by with_unfolding_all decide)).2.2.2 5 (by with_unfolding_all decide)
